import Mathlib

/-!
# Travel Planning API — verification of the specified behavior

Shallow embedding of the travel-planning service core:

* the Scoring Engine (`rankActivities`, from `src/utils/activityRanking.ts`,
  present in the repository snapshot as `src/unnamed/part_000`);
* the Query Orchestrator (`citySuggestions`, `weatherForecast`,
  `activityRanking` resolvers) and the Provider Client
  (`OpenMeteoDataSource`), whose implementation files are not part of the
  snapshot (only their unit tests are) and are therefore modelled from the
  specification.

Floating-point numbers of the source are modelled as rationals; the one
behaviorally relevant IEEE artefact — `lodash.mean([])` returning `NaN`,
whose comparisons are all false — is modelled by an `Option ℚ` aggregate
where `none` compares false on every side.
-/

namespace TravelPlanning

/-- Activity kinds, from the generated `ActivityType` enum in
`src/schema/types.ts` (SKIING, SURFING, INDOOR_SIGHTSEEING,
OUTDOOR_SIGHTSEEING). -/
inductive ActivityType
  | skiing
  | surfing
  | indoorSightseeing
  | outdoorSightseeing
deriving DecidableEq, Repr

/-- One day of forecast data, from the `WeatherForecast` type in
`src/schema/types.ts`. -/
structure WeatherForecast where
  date : String
  temperatureMax : ℚ
  temperatureMin : ℚ
  precipitationSum : ℚ
  windSpeedMax : ℚ
deriving DecidableEq, Repr

/-- Intermediate scored activity, from the `ActivityScore` interface in
`src/utils/activityRanking.ts`. -/
structure ActivityScore where
  type : ActivityType
  score : ℚ
deriving DecidableEq, Repr

/-- Ranked activity, from the `Activity` type in `src/schema/types.ts`. -/
structure Activity where
  type : ActivityType
  rank : ℕ
  suitabilityScore : ℚ
deriving DecidableEq, Repr

/-- `lodash.mean`: arithmetic mean of a list. `mean([])` is `NaN` in the
source (0/0); that absorbing value is modelled as `none`. -/
def mean (xs : List ℚ) : Option ℚ :=
  if xs.isEmpty then none else some (xs.sum / xs.length)

/-- JavaScript `<` on a possibly-NaN left operand: `NaN < b` is false. -/
def jsLt (a : Option ℚ) (b : ℚ) : Bool :=
  match a with
  | none => false
  | some x => x < b

/-- JavaScript `>` on a possibly-NaN left operand: `NaN > b` is false. -/
def jsGt (a : Option ℚ) (b : ℚ) : Bool :=
  match a with
  | none => false
  | some x => b < x

/-- JavaScript `>=` on a possibly-NaN left operand: `NaN >= b` is false. -/
def jsGe (a : Option ℚ) (b : ℚ) : Bool :=
  match a with
  | none => false
  | some x => b ≤ x

/-- JavaScript `<=` on a possibly-NaN left operand: `NaN <= b` is false. -/
def jsLe (a : Option ℚ) (b : ℚ) : Bool :=
  match a with
  | none => false
  | some x => x ≤ b

/-- Skiing condition, `activityRanking.ts` line 30:
`avgTemp < 5 && avgPrecip > 0`. -/
def skiingCond (avgTemp avgPrecip : Option ℚ) : Bool :=
  jsLt avgTemp 5 && jsGt avgPrecip 0

/-- Surfing condition, `activityRanking.ts` line 36:
`avgTemp > 20 && avgWind >= 15 && avgWind <= 30`. -/
def surfingCond (avgTemp avgWind : Option ℚ) : Bool :=
  jsGt avgTemp 20 && jsGe avgWind 15 && jsLe avgWind 30

/-- Indoor-sightseeing condition, `activityRanking.ts` line 41:
`avgPrecip > 2`. -/
def indoorCond (avgPrecip : Option ℚ) : Bool :=
  jsGt avgPrecip 2

/-- Outdoor-sightseeing condition, `activityRanking.ts` line 46:
`avgTemp >= 15 && avgTemp <= 30 && avgPrecip < 2`. -/
def outdoorCond (avgTemp avgPrecip : Option ℚ) : Bool :=
  jsGe avgTemp 15 && jsLe avgTemp 30 && jsLt avgPrecip 2

/-- The `scores` array of `activityRanking.ts` lines 26–48 with the four
condition outcomes abstracted, in declaration order Skiing, Surfing,
IndoorSightseeing, OutdoorSightseeing. -/
def scoresTable (b1 b2 b3 b4 : Bool) : List ActivityScore :=
  [⟨.skiing, if b1 then 9/10 else 1/10⟩,
   ⟨.surfing, if b2 then 7/10 else 2/10⟩,
   ⟨.indoorSightseeing, if b3 then 8/10 else 3/10⟩,
   ⟨.outdoorSightseeing, if b4 then 9/10 else 2/10⟩]

/-- The `scores` array of `activityRanking.ts` lines 26–48 as a function of
the three aggregates. -/
def scoresFor (avgTemp avgPrecip avgWind : Option ℚ) : List ActivityScore :=
  scoresTable (skiingCond avgTemp avgPrecip) (surfingCond avgTemp avgWind)
    (indoorCond avgPrecip) (outdoorCond avgTemp avgPrecip)

/-- Stable insertion into a list sorted by score descending: the element
goes before the first entry whose score is ≤ its own, so an element earlier
in the input precedes equal-scored elements later in the input.  This is
the behavior of `Array.prototype.sort` (stable, ES2019+) under the
comparator `(a, b) => b.score - a.score` of `activityRanking.ts` line 53. -/
def insertDesc (a : ActivityScore) : List ActivityScore → List ActivityScore
  | [] => [a]
  | b :: l => if b.score ≤ a.score then a :: b :: l else b :: insertDesc a l

/-- Stable descending-by-score sort, modelling
`scores.sort((a, b) => b.score - a.score)`. -/
def sortDesc : List ActivityScore → List ActivityScore
  | [] => []
  | a :: l => insertDesc a (sortDesc l)

/-- `.map((activity, index) => ({type, rank: index + 1, suitabilityScore}))`
of `activityRanking.ts` lines 54–58, with the first rank passed in. -/
def assignRanks : ℕ → List ActivityScore → List Activity
  | _, [] => []
  | i, a :: l => ⟨a.type, i, a.score⟩ :: assignRanks (i + 1) l

/-- The `avgTemp` aggregate of `activityRanking.ts` line 17:
`mean(forecasts.map(f => (f.temperatureMax + f.temperatureMin) / 2))`. -/
def avgTemp (forecasts : List WeatherForecast) : Option ℚ :=
  mean (forecasts.map fun f => (f.temperatureMax + f.temperatureMin) / 2)

/-- The `avgPrecip` aggregate of `activityRanking.ts` line 20:
`mean(forecasts.map(f => f.precipitationSum))`. -/
def avgPrecip (forecasts : List WeatherForecast) : Option ℚ :=
  mean (forecasts.map fun f => f.precipitationSum)

/-- The `avgWind` aggregate of `activityRanking.ts` line 23:
`mean(forecasts.map(f => f.windSpeedMax))`. -/
def avgWind (forecasts : List WeatherForecast) : Option ℚ :=
  mean (forecasts.map fun f => f.windSpeedMax)

/-- `rankActivities`, from `src/utils/activityRanking.ts` lines 14–62:
average the midpoint temperature, the precipitation and the max wind speed
over the forecast days, score the four activities by the fixed rule table,
sort by score descending (stable) and assign ranks 1..4. -/
def rankActivities (forecasts : List WeatherForecast) : List Activity :=
  assignRanks 1 (sortDesc
    (scoresFor (avgTemp forecasts) (avgPrecip forecasts) (avgWind forecasts)))

/-- Position of an activity in the declaration order of the `scores` table
of `activityRanking.ts` (Skiing, Surfing, IndoorSightseeing,
OutdoorSightseeing), used to state the tie-break property. -/
def declIndex : ActivityType → ℕ
  | .skiing => 0
  | .surfing => 1
  | .indoorSightseeing => 2
  | .outdoorSightseeing => 3

/-- Specification-side mean temperature, written from the spec's words
(§4.3): average of `(max+min)/2` per day, `0` on an empty sequence. -/
def specMeanTemp (fs : List WeatherForecast) : ℚ :=
  if fs.isEmpty then 0
  else (fs.map fun f => (f.temperatureMax + f.temperatureMin) / 2).sum / fs.length

/-- Specification-side mean precipitation (§4.3), `0` on empty input. -/
def specMeanPrecip (fs : List WeatherForecast) : ℚ :=
  if fs.isEmpty then 0 else (fs.map fun f => f.precipitationSum).sum / fs.length

/-- Specification-side mean max wind speed (§4.3), `0` on empty input. -/
def specMeanWind (fs : List WeatherForecast) : ℚ :=
  if fs.isEmpty then 0 else (fs.map fun f => f.windSpeedMax).sum / fs.length

/-- Specification-side rule table of §4.3, written from the spec's words for
the refinement claim: score per activity as a function of the three
aggregates, in the table's declaration order. -/
def specScores (t p w : ℚ) : List ActivityScore :=
  [⟨.skiing, if t < 5 ∧ 0 < p then 9/10 else 1/10⟩,
   ⟨.surfing, if 20 < t ∧ 15 ≤ w ∧ w ≤ 30 then 7/10 else 2/10⟩,
   ⟨.indoorSightseeing, if 2 < p then 8/10 else 3/10⟩,
   ⟨.outdoorSightseeing, if 15 ≤ t ∧ t ≤ 30 ∧ p < 2 then 9/10 else 2/10⟩]

/-- Specification-side ranking (§4.3), written from the spec's words:
aggregate, score by the rule table, sort by score descending with the
stable tie-break, assign ranks 1..4. -/
def rankActivitiesSpec (fs : List WeatherForecast) : List Activity :=
  assignRanks 1 (sortDesc
    (specScores (specMeanTemp fs) (specMeanPrecip fs) (specMeanWind fs)))

/-- Agreement of two forecast days on every field `rankActivities` reads
(everything except `date`). -/
def sameNumericFields (f g : WeatherForecast) : Prop :=
  f.temperatureMax = g.temperatureMax ∧ f.temperatureMin = g.temperatureMin
  ∧ f.precipitationSum = g.precipitationSum ∧ f.windSpeedMax = g.windSpeedMax

/-! ## Provider Client (spec-modelled)

`src/datasources/OpenMeteoDataSource.ts` is not part of the repository
snapshot — only its unit tests (`tests/unit/OpenMeteoDataSource.test.ts`)
are.  The definitions below are modelled from spec §4.1/§6: a TTL cache in
front of the two provider endpoints, and a bounded retry loop on the
forecast path. -/

/-- City DTO, from the generated `City` type in `src/schema/types.ts`. -/
structure City where
  id : String
  name : String
  latitude : ℚ
  longitude : ℚ
  country : Option String
  population : Option ℕ
deriving DecidableEq, Repr

/-- Modelled from the spec: one entry of the geocoding provider's `results`
array (§6), carrying a numeric id. -/
structure GeoResult where
  id : ℤ
  name : String
  latitude : ℚ
  longitude : ℚ
  country : Option String
  population : Option ℕ
deriving DecidableEq, Repr

/-- Modelled from the spec: mapping of one provider entry to a `City`, with
the provider's numeric id converted to a string (§4.1). -/
def mapCity (r : GeoResult) : City :=
  ⟨toString r.id, r.name, r.latitude, r.longitude, r.country, r.population⟩

/-- Modelled from the spec: the `daily` object of the forecast provider's
response (§6) — five index-aligned parallel arrays. -/
structure DailyResponse where
  time : List String
  temperature2mMax : List ℚ
  temperature2mMin : List ℚ
  precipitationSum : List ℚ
  windSpeed10mMax : List ℚ
deriving DecidableEq, Repr

/-- Modelled from the spec: zip the provider's parallel arrays into one
`WeatherForecast` per index (§4.1/§6; the arrays are index-aligned and of
equal length, so the defaults are never read on conforming responses). -/
def zipDaily (d : DailyResponse) : List WeatherForecast :=
  (List.range d.time.length).map fun i =>
    ⟨d.time.getD i "", d.temperature2mMax.getD i 0, d.temperature2mMin.getD i 0,
     d.precipitationSum.getD i 0, d.windSpeed10mMax.getD i 0⟩

/-- Modelled from the spec: cache keys are a deterministic function of the
normalized request parameters — `(query, effectiveLimit)` for the city
search, `(latitude, longitude, days)` for the forecast (§3, §4.1). -/
inductive CacheKey
  | city (query : String) (count : ℕ)
  | forecast (latitude longitude : ℚ) (days : ℕ)
deriving DecidableEq, Repr

/-- A cached value: a sequence of City or a sequence of DailyWeather (§3). -/
inductive CacheValue
  | cities (value : List City)
  | forecasts (value : List WeatherForecast)
deriving DecidableEq, Repr

/-- The fixed cache TTL of one hour, in milliseconds (§4.1; test file
`OpenMeteoDataSource.test.ts` pins `ttl: 1000 * 60 * 60`). -/
def cacheTTL : ℕ := 1000 * 60 * 60

/-- Modelled from the spec: the Provider Client's cache plus a clock, time
in milliseconds.  Entries carry their store time; expiry is checked on
lookup (entries expire passively, §3).  The 1000-entry LRU capacity bound
(§4.1) is not modelled: no claim under verification depends on eviction. -/
structure DataSourceState where
  now : ℕ
  entries : List (CacheKey × CacheValue × ℕ)
deriving DecidableEq, Repr

/-- A fresh Provider Client: empty cache at time zero. -/
def initialState : DataSourceState := ⟨0, []⟩

/-- Modelled from the spec: cache lookup — the entry for the key, unless it
was stored a full TTL ago or longer (an expired entry is a miss, §3). -/
def cacheGet (st : DataSourceState) (k : CacheKey) : Option CacheValue :=
  match st.entries.find? (fun e => e.1 == k) with
  | some (_, v, storedAt) => if st.now < storedAt + cacheTTL then some v else none
  | none => none

/-- Modelled from the spec: store a value under a key at the current time,
replacing any previous entry for that key. -/
def cacheSet (st : DataSourceState) (k : CacheKey) (v : CacheValue) : DataSourceState :=
  ⟨st.now, (k, v, st.now) :: st.entries.filter (fun e => !(e.1 == k))⟩

/-- Let `delta` milliseconds pass on the Provider Client's clock. -/
def advanceTime (st : DataSourceState) (delta : ℕ) : DataSourceState :=
  ⟨st.now + delta, st.entries⟩

/-- Modelled from the spec: the outcome of one upstream HTTP attempt — a
2xx response with a parsed body, a non-2xx status, or a transport error. -/
inductive HttpAttempt (α : Type)
  | success (body : α)
  | httpError (status : ℕ)
  | networkError (message : String)
deriving DecidableEq, Repr

/-- The retry bound of the forecast path: 3 attempts total (§4.1). -/
def maxAttempts : ℕ := 3

/-- Modelled from the spec: the bounded retry loop of the forecast fetch
(§4.1): an HTTP 429 response is retried while attempt budget remains; every
other failure class (4xx other than 429, 5xx, network error) surfaces
`FetchError` immediately.  `responses i` is the provider's answer to the
(i+1)-th upstream attempt; the result carries the number of upstream
attempts performed. -/
def retryFetch (responses : ℕ → HttpAttempt DailyResponse) :
    ℕ → ℕ → Except String DailyResponse × ℕ
  | _, 0 => (.error "Failed to fetch weather forecast: no attempt budget", 0)
  | i, fuel + 1 =>
    match responses i with
    | .success body => (.ok body, 1)
    | .httpError status =>
        if status = 429 ∧ 0 < fuel then
          ((retryFetch responses (i + 1) fuel).1, (retryFetch responses (i + 1) fuel).2 + 1)
        else (.error ("Failed to fetch weather forecast: HTTP " ++ toString status), 1)
    | .networkError m => (.error ("Failed to fetch weather forecast: " ++ m), 1)

/-- The full forecast HTTP interaction: up to `maxAttempts` attempts. -/
def forecastHttp (responses : ℕ → HttpAttempt DailyResponse) :
    Except String DailyResponse × ℕ :=
  retryFetch responses 0 maxAttempts

/-- Modelled from the spec: `OpenMeteoDataSource.searchCities` (§4.1).  On
cache hit the cached sequence is returned with no HTTP call; on miss the
geocoding endpoint is queried (one attempt, no retry on this path), each
entry is mapped to a `City`, and the result — even an empty one — is cached
under the key built from `(query, count)`.  `response` is the provider's
answer to the single attempt; the result carries the new state and the
number of HTTP calls made. -/
def searchCities (response : HttpAttempt (List GeoResult)) (query : String)
    (count : ℕ) (st : DataSourceState) :
    Except String (List City) × DataSourceState × ℕ :=
  match cacheGet st (.city query count) with
  | some (.cities v) => (.ok v, st, 0)
  | _ =>
    match response with
    | .success rs =>
        (.ok (rs.map mapCity),
         cacheSet st (.city query count) (.cities (rs.map mapCity)), 1)
    | .httpError status =>
        (.error ("Failed to fetch cities: HTTP " ++ toString status), st, 1)
    | .networkError m => (.error ("Failed to fetch cities: " ++ m), st, 1)

/-- Modelled from the spec: `OpenMeteoDataSource.getWeatherForecast`
(§4.1).  On cache hit the cached sequence is returned with no HTTP call; on
miss the forecast endpoint is fetched through the retry loop, the parallel
arrays are zipped, and the result — even an empty one (`days = 0`) — is
cached under the key built from `(latitude, longitude, days)`.  The result
carries the new state and the number of HTTP attempts made. -/
def getWeatherForecast (responses : ℕ → HttpAttempt DailyResponse)
    (latitude longitude : ℚ) (days : ℕ) (st : DataSourceState) :
    Except String (List WeatherForecast) × DataSourceState × ℕ :=
  match cacheGet st (.forecast latitude longitude days) with
  | some (.forecasts v) => (.ok v, st, 0)
  | _ =>
    match forecastHttp responses with
    | (.ok body, n) =>
        (.ok (zipDaily body),
         cacheSet st (.forecast latitude longitude days) (.forecasts (zipDaily body)), n)
    | (.error m, n) => (.error m, st, n)

/-! ## Query Orchestrator (spec-modelled)

`src/resolvers/resolvers.ts` is not part of the repository snapshot — only
its unit tests (`tests/unit/resolvers.test.ts`) are.  The three operations
below are modelled from spec §4.2: complexity gate at threshold 1000,
pagination, and mapping of every failure to a stable error code.  The
Provider Client is abstracted as the outcome it would deliver; each
operation returns the number of Provider Client calls it made (and, for
`activityRanking`, the number of Scoring Engine invocations), so that the
"no call happens" parts of the spec are statable. -/

/-- The stable external error vocabulary (§6). -/
inductive ErrorCode
  | notFound
  | searchFailed
  | noForecast
  | forecastFailed
  | rankingFailed
  | complexityExceeded
deriving DecidableEq, Repr

/-- A typed application error: machine-readable code plus message (§6/§7). -/
structure AppError where
  code : ErrorCode
  message : String
deriving DecidableEq, Repr

/-- The fixed complexity threshold (§4.2). -/
def complexityLimit : ℕ := 1000

/-- The `ComplexityExceeded` error for a given computed score (§4.2/§7). -/
def complexityError (score : ℕ) : AppError :=
  ⟨.complexityExceeded,
   "Query too complex: " ++ toString score ++ " exceeds limit of 1000"⟩

/-- Outcome of a Provider Client call as seen by the orchestrator: a value,
or a failure carrying the underlying message. -/
inductive FetchOutcome (α : Type)
  | ok (value : α)
  | failure (message : String)
deriving DecidableEq, Repr

/-- Modelled from the spec: the `citySuggestions` resolver (§4.2).
`complexity` is the computed query-complexity score; `search n` is the
Provider Client outcome for `searchCities(query, n)`.  After the gate the
operation over-fetches `limit + offset` items, fails `NotFound` when the
unsliced result is empty, and otherwise returns the clamped window
`[offset, offset + limit)`.  The second component counts Provider Client
calls. -/
def citySuggestions (complexity : ℕ) (search : ℕ → FetchOutcome (List City))
    (limit offset : ℕ) : Except AppError (List City) × ℕ :=
  if complexityLimit < complexity then (.error (complexityError complexity), 0)
  else
    match search (limit + offset) with
    | .failure m => (.error ⟨.searchFailed, "City search failed: " ++ m⟩, 1)
    | .ok cities =>
        if cities.isEmpty then
          (.error ⟨.notFound, "no cities found for the given query"⟩, 1)
        else (.ok ((cities.drop offset).take limit), 1)

/-- Modelled from the spec: the `weatherForecast` resolver (§4.2).  `fetch`
is the Provider Client outcome of `getWeatherForecast(lat, lon, days)`; an
empty sequence — including the `days = 0` case — fails `NoForecast`, a
Provider Client failure fails `ForecastFailed`.  The second component
counts Provider Client calls. -/
def weatherForecast (complexity : ℕ)
    (fetch : FetchOutcome (List WeatherForecast)) :
    Except AppError (List WeatherForecast) × ℕ :=
  if complexityLimit < complexity then (.error (complexityError complexity), 0)
  else
    match fetch with
    | .failure m => (.error ⟨.forecastFailed, "Weather forecast failed: " ++ m⟩, 1)
    | .ok l =>
        if l.isEmpty then
          (.error ⟨.noForecast, "No weather forecast available"⟩, 1)
        else (.ok l, 1)

/-- Modelled from the spec: the `activityRanking` resolver (§4.2).  As
`weatherForecast`, but a non-empty forecast is handed to the Scoring
Engine.  The result carries the number of Provider Client calls and the
number of Scoring Engine invocations. -/
def activityRanking (complexity : ℕ)
    (fetch : FetchOutcome (List WeatherForecast)) :
    Except AppError (List Activity) × ℕ × ℕ :=
  if complexityLimit < complexity then (.error (complexityError complexity), 0, 0)
  else
    match fetch with
    | .failure m => (.error ⟨.rankingFailed, "Activity ranking failed: " ++ m⟩, 1, 0)
    | .ok l =>
        if l.isEmpty then
          (.error ⟨.noForecast, "no weather forecast available for ranking"⟩, 1, 0)
        else (.ok (rankActivities l), 1, 1)

/-- A sample city (the London entry of the resolver tests). -/
def cityLondon : City := ⟨"1", "London", 51, 0, some "UK", some 9000000⟩

/-- A second sample city (the London, Ontario entry of the resolver tests). -/
def cityLondonOn : City := ⟨"2", "London, ON", 42, -81, some "CA", some 400000⟩

/-- A sample one-day forecast body (the body of the data-source tests). -/
def sampleDaily : DailyResponse := ⟨["2025-08-21"], [25], [15], [0], [10]⟩

/-- An empty forecast body: what the provider returns for `forecast_days = 0`. -/
def emptyDaily : DailyResponse := ⟨[], [], [], [], []⟩

/-! ## Scoring Engine theorems -/

/-- Exhaustive behavior of sort-and-rank over the four table entries, for
every combination of the four rule outcomes: ranks run 1..4 in output
order, the output has four entries, scores are non-increasing and lie in
`[0,1]`, and equal-scored entries keep the table's declaration order. -/
theorem ranked_table_cases (b1 b2 b3 b4 : Bool) :
    (assignRanks 1 (sortDesc (scoresTable b1 b2 b3 b4))).map Activity.rank = [1, 2, 3, 4]
    ∧ (assignRanks 1 (sortDesc (scoresTable b1 b2 b3 b4))).length = 4
    ∧ (assignRanks 1 (sortDesc (scoresTable b1 b2 b3 b4))).Chain'
        (fun a b => b.suitabilityScore ≤ a.suitabilityScore)
    ∧ (∀ a ∈ assignRanks 1 (sortDesc (scoresTable b1 b2 b3 b4)),
        0 ≤ a.suitabilityScore ∧ a.suitabilityScore ≤ 1)
    ∧ (assignRanks 1 (sortDesc (scoresTable b1 b2 b3 b4))).Pairwise
        (fun a b => a.suitabilityScore = b.suitabilityScore →
          declIndex a.type < declIndex b.type) := by
  cases b1 <;> cases b2 <;> cases b3 <;> cases b4 <;>
    norm_num [scoresTable, sortDesc, insertDesc, assignRanks, List.chain'_cons,
      List.pairwise_cons, declIndex]

/-- On a non-NaN aggregate triple the source's rule table agrees with the
specification-side rule table. -/
theorem scoresFor_some (t p w : ℚ) :
    scoresFor (some t) (some p) (some w) = specScores t p w := by
  simp [scoresFor, scoresTable, specScores, skiingCond, surfingCond, indoorCond,
    outdoorCond, jsLt, jsGt, jsGe, jsLe, Bool.and_eq_true, decide_eq_true_eq, and_assoc]

/-- On a non-empty input the source's `avgTemp` is the spec's mean. -/
theorem avgTemp_cons (f : WeatherForecast) (l : List WeatherForecast) :
    avgTemp (f :: l) = some (specMeanTemp (f :: l)) := by
  simp [avgTemp, mean, specMeanTemp]

/-- On a non-empty input the source's `avgPrecip` is the spec's mean. -/
theorem avgPrecip_cons (f : WeatherForecast) (l : List WeatherForecast) :
    avgPrecip (f :: l) = some (specMeanPrecip (f :: l)) := by
  simp [avgPrecip, mean, specMeanPrecip]

/-- On a non-empty input the source's `avgWind` is the spec's mean. -/
theorem avgWind_cons (f : WeatherForecast) (l : List WeatherForecast) :
    avgWind (f :: l) = some (specMeanWind (f :: l)) := by
  simp [avgWind, mean, specMeanWind]

/-- `rankActivities` refines the specification-side description on every
input (the empty input goes through `NaN` aggregates in the source and
through the zero convention in the spec; every rule-table condition is
false either way). -/
theorem rankActivities_eq_spec (fs : List WeatherForecast) :
    rankActivities fs = rankActivitiesSpec fs := by
  cases fs with
  | nil =>
      norm_num [rankActivities, rankActivitiesSpec, avgTemp, avgPrecip, avgWind,
        mean, specMeanTemp, specMeanPrecip, specMeanWind, scoresFor, scoresTable,
        specScores, skiingCond, surfingCond, indoorCond, outdoorCond,
        jsLt, jsGt, jsGe, jsLe]
  | cons f l =>
      rw [rankActivities, avgTemp_cons, avgPrecip_cons, avgWind_cons, scoresFor_some,
        rankActivitiesSpec]

/-- C1: for every input sequence, `rankActivities` computes the three
aggregate means, assigns each activity the score of the fixed rule table,
sorts by score descending with ties keeping the declaration order Skiing,
Surfing, Indoor, Outdoor, and assigns ranks 1..4 in sorted order — stated
as agreement with the specification-side description, together with the
descending-score, rank-assignment and stable-tie-break properties of the
output. -/
theorem rankActivities_follows_rule_table (fs : List WeatherForecast) :
    rankActivities fs = rankActivitiesSpec fs
    ∧ (rankActivities fs).Chain' (fun a b => b.suitabilityScore ≤ a.suitabilityScore)
    ∧ (rankActivities fs).map Activity.rank = [1, 2, 3, 4]
    ∧ (rankActivities fs).Pairwise
        (fun a b => a.suitabilityScore = b.suitabilityScore →
          declIndex a.type < declIndex b.type) := by
  obtain ⟨h1, _, h3, _, h5⟩ := ranked_table_cases
    (skiingCond (avgTemp fs) (avgPrecip fs)) (surfingCond (avgTemp fs) (avgWind fs))
    (indoorCond (avgPrecip fs)) (outdoorCond (avgTemp fs) (avgPrecip fs))
  refine ⟨rankActivities_eq_spec fs, ?_, ?_, ?_⟩ <;>
    simp only [rankActivities, scoresFor] <;> assumption

/-- C8: on the empty input sequence `rankActivities` deterministically
returns Indoor sightseeing 0.3 rank 1, Surfing 0.2 rank 2, Outdoor
sightseeing 0.2 rank 3, Skiing 0.1 rank 4. -/
theorem rankActivities_empty_fixed :
    rankActivities [] =
      [⟨.indoorSightseeing, 1, 3/10⟩, ⟨.surfing, 2, 2/10⟩,
       ⟨.outdoorSightseeing, 3, 2/10⟩, ⟨.skiing, 4, 1/10⟩] := by
  norm_num [rankActivities, avgTemp, avgPrecip, avgWind, mean, scoresFor, scoresTable,
    skiingCond, surfingCond, indoorCond, outdoorCond, jsLt, jsGt, jsGe, jsLe,
    sortDesc, insertDesc, assignRanks]

/-- C9: on every non-empty input `rankActivities` returns exactly 4
entries, the ranks are a permutation of 1..4 with no duplicates, and every
suitability score lies in `[0, 1]`. -/
theorem rankActivities_rank_invariants (fs : List WeatherForecast) (hne : fs ≠ []) :
    (rankActivities fs).length = 4
    ∧ ((rankActivities fs).map Activity.rank).Perm [1, 2, 3, 4]
    ∧ ∀ a ∈ rankActivities fs, 0 ≤ a.suitabilityScore ∧ a.suitabilityScore ≤ 1 := by
  obtain ⟨h1, h2, _, h4, _⟩ := ranked_table_cases
    (skiingCond (avgTemp fs) (avgPrecip fs)) (surfingCond (avgTemp fs) (avgWind fs))
    (indoorCond (avgPrecip fs)) (outdoorCond (avgTemp fs) (avgPrecip fs))
  refine ⟨?_, ?_, ?_⟩
  · simp only [rankActivities, scoresFor]; exact h2
  · simp only [rankActivities, scoresFor]; rw [h1]
  · simp only [rankActivities, scoresFor]; exact h4

/-- C9 witness: the invariants at a concrete one-day forecast. -/
theorem rankActivities_rank_invariants_witness :
    ([⟨"2025-08-15", 26, 24, 0, 14⟩] : List WeatherForecast) ≠ []
    ∧ ((rankActivities [⟨"2025-08-15", 26, 24, 0, 14⟩]).length = 4
      ∧ ((rankActivities [⟨"2025-08-15", 26, 24, 0, 14⟩]).map Activity.rank).Perm
          [1, 2, 3, 4]
      ∧ ∀ a ∈ rankActivities [⟨"2025-08-15", 26, 24, 0, 14⟩],
          0 ≤ a.suitabilityScore ∧ a.suitabilityScore ≤ 1) :=
  ⟨List.cons_ne_nil _ _,
   rankActivities_rank_invariants [⟨"2025-08-15", 26, 24, 0, 14⟩] (List.cons_ne_nil _ _)⟩

/-- C10: the output of `rankActivities` does not depend on the `date`
fields — two inputs of the same length agreeing on the four numeric fields
at every index produce identical rankings. -/
theorem rankActivities_date_irrelevant (fs gs : List WeatherForecast)
    (h : List.Forall₂ sameNumericFields fs gs) :
    rankActivities fs = rankActivities gs := by
  have key : fs.map (fun f => (f.temperatureMax + f.temperatureMin) / 2)
        = gs.map (fun f => (f.temperatureMax + f.temperatureMin) / 2)
      ∧ fs.map (fun f => f.precipitationSum) = gs.map (fun f => f.precipitationSum)
      ∧ fs.map (fun f => f.windSpeedMax) = gs.map (fun f => f.windSpeedMax) := by
    induction h with
    | nil => exact ⟨rfl, rfl, rfl⟩
    | cons hfg _ ih =>
        obtain ⟨e1, e2, e3, e4⟩ := hfg
        exact ⟨by simp [e1, e2, ih.1], by simp [e3, ih.2.1], by simp [e4, ih.2.2]⟩
  simp only [rankActivities, avgTemp, avgPrecip, avgWind, key.1, key.2.1, key.2.2]

/-- C10 witness: two one-day forecasts differing only in the date string
rank identically. -/
theorem rankActivities_date_irrelevant_witness :
    rankActivities [⟨"2025-08-15", 26, 24, 0, 14⟩]
      = rankActivities [⟨"1999-01-01", 26, 24, 0, 14⟩] :=
  rankActivities_date_irrelevant _ _
    (List.Forall₂.cons ⟨rfl, rfl, rfl, rfl⟩ List.Forall₂.nil)

/-! ## Query Orchestrator theorems -/

/-- C2: for every valid `(query, limit, offset)` below the complexity
threshold, `citySuggestions` asks the Provider Client for `limit + offset`
items and, when that unsliced result is non-empty, returns exactly the
`[offset, offset + limit)` window of it in one Provider Client call; the
window is clamped (never more than `limit` items, empty when the offset is
beyond the result or when `limit = 0`, never out of range). -/
theorem citySuggestions_pagination (complexity limit offset : ℕ)
    (hc : complexity ≤ complexityLimit) (search : ℕ → FetchOutcome (List City))
    (cities : List City) (hs : search (limit + offset) = .ok cities)
    (hne : cities ≠ []) :
    citySuggestions complexity search limit offset
      = (.ok ((cities.drop offset).take limit), 1)
    ∧ ((cities.drop offset).take limit).length ≤ limit
    ∧ (cities.length ≤ offset → (cities.drop offset).take limit = [])
    ∧ (limit = 0 → (cities.drop offset).take limit = []) := by
  refine ⟨?_, ?_, ?_, ?_⟩
  · simp [citySuggestions, Nat.not_lt.mpr hc, hs, hne]
  · simp [List.length_take]
  · intro h
    rw [List.drop_eq_nil_of_le h, List.take_nil]
  · intro h
    simp [h]

/-- C2 witness: `limit = 1, offset = 1` over a two-city upstream result
returns exactly the second city. -/
theorem citySuggestions_pagination_witness :
    (500 ≤ complexityLimit ∧ ([cityLondon, cityLondonOn] : List City) ≠ [])
    ∧ citySuggestions 500 (fun _ => .ok [cityLondon, cityLondonOn]) 1 1
        = (.ok [cityLondonOn], 1) :=
  ⟨⟨by decide, List.cons_ne_nil _ _⟩,
   ((citySuggestions_pagination 500 1 1 (by decide) _ [cityLondon, cityLondonOn]
      rfl (List.cons_ne_nil _ _)).1)⟩

/-- C3: whenever the computed complexity score exceeds the fixed threshold
1000, each of the three operations fails with `ComplexityExceeded` and
makes zero Provider Client calls (and `activityRanking` makes zero Scoring
Engine invocations) — hence no network or cache access happens. -/
theorem complexity_gate (complexity : ℕ) (hc : complexityLimit < complexity)
    (search : ℕ → FetchOutcome (List City))
    (fetch : FetchOutcome (List WeatherForecast)) (limit offset : ℕ) :
    citySuggestions complexity search limit offset
      = (.error (complexityError complexity), 0)
    ∧ weatherForecast complexity fetch = (.error (complexityError complexity), 0)
    ∧ activityRanking complexity fetch = (.error (complexityError complexity), 0, 0) := by
  refine ⟨?_, ?_, ?_⟩ <;> simp [citySuggestions, weatherForecast, activityRanking, hc]

/-- C3 witness: complexity 1001 trips the gate on all three operations. -/
theorem complexity_gate_witness :
    complexityLimit < 1001
    ∧ citySuggestions 1001 (fun _ => .ok [cityLondon]) 10 0
        = (.error (complexityError 1001), 0)
    ∧ weatherForecast 1001 (.ok []) = (.error (complexityError 1001), 0)
    ∧ activityRanking 1001 (.ok []) = (.error (complexityError 1001), 0, 0) :=
  ⟨by decide, complexity_gate 1001 (by decide) _ _ 10 0⟩

/-- C4: below the complexity threshold, `weatherForecast` fails with
`NoForecast` exactly on an empty fetched sequence, `activityRanking` on an
empty forecast fails with `NoForecast` carrying the message "no weather
forecast available for ranking" without invoking the Scoring Engine, and on
a non-empty forecast `activityRanking` returns the Scoring Engine's result;
a `days = 0` request yields the empty sequence (the provider's parallel
arrays are empty), so it is an instance of the empty case. -/
theorem noForecast_handling (complexity : ℕ) (hc : complexity ≤ complexityLimit)
    (l : List WeatherForecast) :
    (l = [] →
      weatherForecast complexity (.ok l)
          = (.error ⟨.noForecast, "No weather forecast available"⟩, 1)
        ∧ activityRanking complexity (.ok l)
          = (.error ⟨.noForecast, "no weather forecast available for ranking"⟩, 1, 0))
    ∧ (l ≠ [] →
        activityRanking complexity (.ok l) = (.ok (rankActivities l), 1, 1))
    ∧ (∀ body : DailyResponse, body.time = [] → zipDaily body = []) := by
  refine ⟨?_, ?_, ?_⟩
  · rintro rfl
    constructor <;> simp [weatherForecast, activityRanking, Nat.not_lt.mpr hc]
  · intro h
    simp [activityRanking, Nat.not_lt.mpr hc, h]
  · intro body hb
    simp [zipDaily, hb]

/-- C4 witness: the empty forecast fails both operations with `NoForecast`,
and a one-day forecast is ranked by the Scoring Engine. -/
theorem noForecast_handling_witness :
    500 ≤ complexityLimit
    ∧ weatherForecast 500 (.ok ([] : List WeatherForecast))
        = (.error ⟨.noForecast, "No weather forecast available"⟩, 1)
    ∧ activityRanking 500 (.ok ([] : List WeatherForecast))
        = (.error ⟨.noForecast, "no weather forecast available for ranking"⟩, 1, 0)
    ∧ activityRanking 500 (.ok [⟨"2025-08-21", 25, 15, 0, 10⟩])
        = (.ok (rankActivities [⟨"2025-08-21", 25, 15, 0, 10⟩]), 1, 1) :=
  ⟨by decide,
   ((noForecast_handling 500 (by decide) []).1 rfl).1,
   ((noForecast_handling 500 (by decide) []).1 rfl).2,
   (noForecast_handling 500 (by decide) [⟨"2025-08-21", 25, 15, 0, 10⟩]).2.1
     (List.cons_ne_nil _ _)⟩

/-- C5: below the complexity threshold, `citySuggestions` fails with
`NotFound` carrying the fixed message "no cities found for the given query"
exactly when the unsliced Provider Client result is empty, fails with
`SearchFailed` wrapping the underlying message exactly when the Provider
Client call fails, and a `limit = 0` call over a non-empty provider result
succeeds with the empty sequence. -/
theorem citySuggestions_error_classification (complexity limit offset : ℕ)
    (hc : complexity ≤ complexityLimit) (o : FetchOutcome (List City)) :
    ((citySuggestions complexity (fun _ => o) limit offset).1
        = .error ⟨.notFound, "no cities found for the given query"⟩ ↔ o = .ok [])
    ∧ (∀ m, o = .failure m →
        citySuggestions complexity (fun _ => o) limit offset
          = (.error ⟨.searchFailed, "City search failed: " ++ m⟩, 1))
    ∧ ((∃ m, (citySuggestions complexity (fun _ => o) limit offset).1
          = .error ⟨.searchFailed, m⟩) ↔ ∃ m, o = .failure m)
    ∧ (∀ cities, o = .ok cities → cities ≠ [] →
        citySuggestions complexity (fun _ => o) 0 offset = (.ok [], 1)) := by
  have hgate := Nat.not_lt.mpr hc
  refine ⟨?_, ?_, ?_, ?_⟩
  · cases o with
    | ok cities =>
        by_cases hne : cities = [] <;> simp [citySuggestions, hgate, hne]
    | failure m => simp [citySuggestions, hgate]
  · rintro m rfl
    simp [citySuggestions, hgate]
  · cases o with
    | ok cities =>
        by_cases hne : cities = [] <;> simp [citySuggestions, hgate, hne]
    | failure m => simp [citySuggestions, hgate]
  · rintro cities rfl hne
    simp [citySuggestions, hgate, hne]

/-- C5 witness: empty provider result gives `NotFound` with the fixed
message, a failing provider gives `SearchFailed` wrapping "API error", and
`limit = 0` over one city succeeds with `[]`. -/
theorem citySuggestions_error_classification_witness :
    500 ≤ complexityLimit
    ∧ (citySuggestions 500 (fun _ => .ok ([] : List City)) 10 0).1
        = .error ⟨.notFound, "no cities found for the given query"⟩
    ∧ citySuggestions 500 (fun _ => .failure "API error") 10 0
        = (.error ⟨.searchFailed, "City search failed: API error"⟩, 1)
    ∧ citySuggestions 500 (fun _ => .ok [cityLondon]) 0 0 = (.ok [], 1) :=
  ⟨by decide,
   (citySuggestions_error_classification 500 10 0 (by decide) (.ok [])).1.mpr rfl,
   (citySuggestions_error_classification 500 10 0 (by decide)
      (.failure "API error")).2.1 "API error" rfl,
   (citySuggestions_error_classification 500 0 0 (by decide)
      (.ok [cityLondon])).2.2.2 [cityLondon] rfl (List.cons_ne_nil _ _)⟩

/-! ## Provider Client theorems -/

/-- A fresh Provider Client has nothing cached. -/
theorem cacheGet_initial (k : CacheKey) : cacheGet initialState k = none := rfl

/-- A freshly stored entry is immediately visible under its key. -/
theorem cacheGet_cacheSet_self (st : DataSourceState) (k : CacheKey) (v : CacheValue) :
    cacheGet (cacheSet st k v) k = some v := by
  simp [cacheGet, cacheSet, cacheTTL]

/-- A stored entry is still visible strictly within the TTL window. -/
theorem cacheGet_cacheSet_advance (st : DataSourceState) (k : CacheKey) (v : CacheValue)
    (delta : ℕ) (h : delta < cacheTTL) :
    cacheGet (advanceTime (cacheSet st k v) delta) k = some v := by
  simp [cacheGet, cacheSet, advanceTime]
  omega

/-- A 2xx answer on attempt `i` ends the retry loop with one attempt. -/
theorem retryFetch_success (responses : ℕ → HttpAttempt DailyResponse) (i fuel : ℕ)
    (body : DailyResponse) (h : responses i = .success body) (hf : fuel ≠ 0) :
    retryFetch responses i fuel = (.ok body, 1) := by
  cases fuel with
  | zero => exact absurd rfl hf
  | succ f => simp only [retryFetch, h]

/-- A 429 answer with budget remaining recurses, adding one attempt. -/
theorem retryFetch_429_chain (responses : ℕ → HttpAttempt DailyResponse) (i fuel : ℕ)
    (h : responses i = .httpError 429) (hf : 0 < fuel)
    (r : Except String DailyResponse) (n : ℕ)
    (hrec : retryFetch responses (i + 1) fuel = (r, n)) :
    retryFetch responses i (fuel + 1) = (r, n + 1) := by
  simp [retryFetch, h, hf, hrec]

/-- Any non-429 HTTP failure surfaces `FetchError` after one attempt. -/
theorem retryFetch_other_fail (responses : ℕ → HttpAttempt DailyResponse)
    (i fuel status : ℕ) (h : responses i = .httpError status) (hs : status ≠ 429)
    (hf : fuel ≠ 0) :
    retryFetch responses i fuel
      = (.error ("Failed to fetch weather forecast: HTTP " ++ toString status), 1) := by
  cases fuel with
  | zero => exact absurd rfl hf
  | succ f =>
      simp only [retryFetch, h]
      rw [if_neg (by tauto)]

/-- A network error surfaces `FetchError` after one attempt. -/
theorem retryFetch_net_fail (responses : ℕ → HttpAttempt DailyResponse) (i fuel : ℕ)
    (m : String) (h : responses i = .networkError m) (hf : fuel ≠ 0) :
    retryFetch responses i fuel
      = (.error ("Failed to fetch weather forecast: " ++ m), 1) := by
  cases fuel with
  | zero => exact absurd rfl hf
  | succ f => simp only [retryFetch, h]

/-- A 429 on the last budgeted attempt surfaces `FetchError`. -/
theorem retryFetch_429_last (responses : ℕ → HttpAttempt DailyResponse) (i : ℕ)
    (h : responses i = .httpError 429) :
    retryFetch responses i 1
      = (.error ("Failed to fetch weather forecast: HTTP " ++ toString 429), 1) := by
  show retryFetch responses i (0 + 1) = _
  simp only [retryFetch, h]
  rw [if_neg (by simp)]

/-- Two 429s followed by a 200 succeed after exactly three attempts. -/
theorem forecastHttp_429_429_ok (responses : ℕ → HttpAttempt DailyResponse)
    (body : DailyResponse) (h0 : responses 0 = .httpError 429)
    (h1 : responses 1 = .httpError 429) (h2 : responses 2 = .success body) :
    forecastHttp responses = (.ok body, 3) := by
  have e2 : retryFetch responses 2 1 = (.ok body, 1) :=
    retryFetch_success responses 2 1 body h2 (by decide)
  have e1 : retryFetch responses 1 2 = (.ok body, 2) :=
    retryFetch_429_chain responses 1 1 h1 (by decide) _ _ e2
  have e0 : retryFetch responses 0 3 = (.ok body, 3) :=
    retryFetch_429_chain responses 0 2 h0 (by decide) _ _ e1
  exact e0

/-- Three consecutive 429s exhaust the budget: `FetchError` after exactly
three attempts. -/
theorem forecastHttp_429_429_429 (responses : ℕ → HttpAttempt DailyResponse)
    (h0 : responses 0 = .httpError 429) (h1 : responses 1 = .httpError 429)
    (h2 : responses 2 = .httpError 429) :
    forecastHttp responses
      = (.error ("Failed to fetch weather forecast: HTTP " ++ toString 429), 3) := by
  have e2 := retryFetch_429_last responses 2 h2
  have e1 : retryFetch responses 1 2
      = (.error ("Failed to fetch weather forecast: HTTP " ++ toString 429), 2) :=
    retryFetch_429_chain responses 1 1 h1 (by decide) _ _ e2
  have e0 : retryFetch responses 0 3
      = (.error ("Failed to fetch weather forecast: HTTP " ++ toString 429), 3) :=
    retryFetch_429_chain responses 0 2 h0 (by decide) _ _ e1
  exact e0

/-- A city search makes at most one HTTP call. -/
theorem searchCities_calls_le_one (r : HttpAttempt (List GeoResult)) (q : String)
    (c : ℕ) (st : DataSourceState) : (searchCities r q c st).2.2 ≤ 1 := by
  unfold searchCities
  split
  · simp
  · split <;> simp

/-- A forecast fetch whose first attempt succeeds makes at most one HTTP
call. -/
theorem getWeatherForecast_calls_le_one (responses : ℕ → HttpAttempt DailyResponse)
    (body : DailyResponse) (hresp : responses 0 = .success body)
    (lat lon : ℚ) (days : ℕ) (st : DataSourceState) :
    (getWeatherForecast responses lat lon days st).2.2 ≤ 1 := by
  have hhttp : forecastHttp responses = (.ok body, 1) :=
    retryFetch_success responses 0 3 body hresp (by decide)
  unfold getWeatherForecast
  split
  · simp
  · rw [hhttp]

/-- C6: for both `searchCities` and `getWeatherForecast`, a cache hit
returns the cached sequence with no HTTP call; a miss fetches, stores the
result (even an empty one: `geo` and `zipDaily body` are arbitrary,
including empty) under the key built deterministically from the request
parameters, and returns it; and two identical calls within the TTL window
make at most one upstream HTTP call in total, from any starting state. -/
theorem providerClient_caching (query : String) (count : ℕ) (geo : List GeoResult)
    (responses : ℕ → HttpAttempt DailyResponse) (body : DailyResponse)
    (lat lon : ℚ) (days : ℕ) (st : DataSourceState) (delta : ℕ)
    (hresp : responses 0 = .success body) (hdelta : delta < cacheTTL) :
    (∀ v, cacheGet st (.city query count) = some (.cities v) →
      searchCities (.success geo) query count st = (.ok v, st, 0))
    ∧ (∀ v, cacheGet st (.forecast lat lon days) = some (.forecasts v) →
      getWeatherForecast responses lat lon days st = (.ok v, st, 0))
    ∧ (cacheGet st (.city query count) = none →
      searchCities (.success geo) query count st
        = (.ok (geo.map mapCity),
           cacheSet st (.city query count) (.cities (geo.map mapCity)), 1)
      ∧ cacheGet (cacheSet st (.city query count) (.cities (geo.map mapCity)))
          (.city query count) = some (.cities (geo.map mapCity)))
    ∧ (cacheGet st (.forecast lat lon days) = none →
      getWeatherForecast responses lat lon days st
        = (.ok (zipDaily body),
           cacheSet st (.forecast lat lon days) (.forecasts (zipDaily body)), 1)
      ∧ cacheGet (cacheSet st (.forecast lat lon days) (.forecasts (zipDaily body)))
          (.forecast lat lon days) = some (.forecasts (zipDaily body)))
    ∧ (searchCities (.success geo) query count st).2.2
        + (searchCities (.success geo) query count
            (advanceTime (searchCities (.success geo) query count st).2.1 delta)).2.2
          ≤ 1
    ∧ (getWeatherForecast responses lat lon days st).2.2
        + (getWeatherForecast responses lat lon days
            (advanceTime (getWeatherForecast responses lat lon days st).2.1 delta)).2.2
          ≤ 1 := by
  have hhttp : forecastHttp responses = (.ok body, 1) :=
    retryFetch_success responses 0 3 body hresp (by decide)
  refine ⟨?_, ?_, ?_, ?_, ?_, ?_⟩
  · intro v hv
    simp [searchCities, hv]
  · intro v hv
    simp [getWeatherForecast, hv]
  · intro hmiss
    exact ⟨by simp [searchCities, hmiss], cacheGet_cacheSet_self _ _ _⟩
  · intro hmiss
    exact ⟨by simp [getWeatherForecast, hmiss, hhttp], cacheGet_cacheSet_self _ _ _⟩
  · rcases hkey : cacheGet st (.city query count) with _ | v
    · have hfirst : searchCities (.success geo) query count st
          = (.ok (geo.map mapCity),
             cacheSet st (.city query count) (.cities (geo.map mapCity)), 1) := by
        simp [searchCities, hkey]
      rw [hfirst]
      have hsecond := cacheGet_cacheSet_advance st (.city query count)
        (.cities (geo.map mapCity)) delta hdelta
      simp [searchCities, hsecond]
    · cases v with
      | cities v =>
          have hfirst : searchCities (.success geo) query count st = (.ok v, st, 0) := by
            simp [searchCities, hkey]
          rw [hfirst]
          simpa using searchCities_calls_le_one _ _ _ _
      | forecasts v =>
          have hfirst : searchCities (.success geo) query count st
              = (.ok (geo.map mapCity),
                 cacheSet st (.city query count) (.cities (geo.map mapCity)), 1) := by
            simp [searchCities, hkey]
          rw [hfirst]
          have hsecond := cacheGet_cacheSet_advance st (.city query count)
            (.cities (geo.map mapCity)) delta hdelta
          simp [searchCities, hsecond]
  · rcases hkey : cacheGet st (.forecast lat lon days) with _ | v
    · have hfirst : getWeatherForecast responses lat lon days st
          = (.ok (zipDaily body),
             cacheSet st (.forecast lat lon days) (.forecasts (zipDaily body)), 1) := by
        simp [getWeatherForecast, hkey, hhttp]
      rw [hfirst]
      have hsecond := cacheGet_cacheSet_advance st (.forecast lat lon days)
        (.forecasts (zipDaily body)) delta hdelta
      simp [getWeatherForecast, hsecond]
    · cases v with
      | forecasts v =>
          have hfirst : getWeatherForecast responses lat lon days st = (.ok v, st, 0) := by
            simp [getWeatherForecast, hkey]
          rw [hfirst]
          simpa using getWeatherForecast_calls_le_one responses body hresp lat lon days _
      | cities v =>
          have hfirst : getWeatherForecast responses lat lon days st
              = (.ok (zipDaily body),
                 cacheSet st (.forecast lat lon days) (.forecasts (zipDaily body)), 1) := by
            simp [getWeatherForecast, hkey, hhttp]
          rw [hfirst]
          have hsecond := cacheGet_cacheSet_advance st (.forecast lat lon days)
            (.forecasts (zipDaily body)) delta hdelta
          simp [getWeatherForecast, hsecond]

/-- C6 witness: a fresh client caches an empty city result under its key
and repeated identical calls within the TTL make one HTTP call in total. -/
theorem providerClient_caching_witness :
    ((fun _ => HttpAttempt.success sampleDaily) 0 = HttpAttempt.success sampleDaily
      ∧ (1000 : ℕ) < cacheTTL)
    ∧ (searchCities (.success []) "London" 10 initialState
        = (.ok [], cacheSet initialState (.city "London" 10) (.cities []), 1)
      ∧ cacheGet (cacheSet initialState (.city "London" 10) (.cities []))
          (.city "London" 10) = some (.cities []))
    ∧ (searchCities (.success []) "London" 10 initialState).2.2
        + (searchCities (.success []) "London" 10
            (advanceTime
              (searchCities (.success []) "London" 10 initialState).2.1 1000)).2.2
          ≤ 1 :=
  ⟨⟨rfl, by decide⟩,
   (providerClient_caching "London" 10 [] (fun _ => .success sampleDaily) sampleDaily
      0 0 7 initialState 1000 rfl (by decide)).2.2.1 rfl,
   (providerClient_caching "London" 10 [] (fun _ => .success sampleDaily) sampleDaily
      0 0 7 initialState 1000 rfl (by decide)).2.2.2.2.1⟩

/-- C7: on a cache miss the forecast fetch retries only on HTTP 429, up to
3 attempts total: two 429s followed by a 200 succeed after exactly 3
upstream attempts; any non-429 HTTP failure and any network error fail
immediately with `FetchError` after exactly 1 attempt; three 429s surface
`FetchError` after exactly 3 attempts. -/
theorem forecast_retry_policy (responses : ℕ → HttpAttempt DailyResponse)
    (lat lon : ℚ) (days : ℕ) (st : DataSourceState)
    (hmiss : cacheGet st (.forecast lat lon days) = none) :
    (∀ body, responses 0 = .httpError 429 → responses 1 = .httpError 429 →
        responses 2 = .success body →
      getWeatherForecast responses lat lon days st
        = (.ok (zipDaily body),
           cacheSet st (.forecast lat lon days) (.forecasts (zipDaily body)), 3))
    ∧ (∀ status, status ≠ 429 → responses 0 = .httpError status →
        getWeatherForecast responses lat lon days st
          = (.error ("Failed to fetch weather forecast: HTTP " ++ toString status),
             st, 1))
    ∧ (∀ m, responses 0 = .networkError m →
        getWeatherForecast responses lat lon days st
          = (.error ("Failed to fetch weather forecast: " ++ m), st, 1))
    ∧ (responses 0 = .httpError 429 → responses 1 = .httpError 429 →
        responses 2 = .httpError 429 →
      getWeatherForecast responses lat lon days st
        = (.error ("Failed to fetch weather forecast: HTTP " ++ toString 429),
           st, 3)) := by
  refine ⟨?_, ?_, ?_, ?_⟩
  · intro body h0 h1 h2
    simp [getWeatherForecast, hmiss, forecastHttp_429_429_ok responses body h0 h1 h2]
  · intro status hs h0
    have hstop := retryFetch_other_fail responses 0 3 status h0 hs (by decide)
    simp [getWeatherForecast, hmiss]
    rw [show forecastHttp responses = retryFetch responses 0 3 from rfl, hstop]
  · intro m h0
    have hstop := retryFetch_net_fail responses 0 3 m h0 (by decide)
    simp [getWeatherForecast, hmiss]
    rw [show forecastHttp responses = retryFetch responses 0 3 from rfl, hstop]
  · intro h0 h1 h2
    simp [getWeatherForecast, hmiss, forecastHttp_429_429_429 responses h0 h1 h2]

/-- C7 witness: 429, 429, 200 succeeds in exactly 3 attempts on a fresh
client, and a single 400 fails in exactly 1 attempt. -/
theorem forecast_retry_policy_witness :
    cacheGet initialState (.forecast 51 0 7) = none
    ∧ getWeatherForecast
        (fun i => if i < 2 then HttpAttempt.httpError 429
                  else HttpAttempt.success emptyDaily) 51 0 7 initialState
      = (.ok (zipDaily emptyDaily),
         cacheSet initialState (.forecast 51 0 7) (.forecasts (zipDaily emptyDaily)), 3)
    ∧ getWeatherForecast (fun _ => HttpAttempt.httpError 400) 51 0 7 initialState
      = (.error ("Failed to fetch weather forecast: HTTP " ++ toString 400),
         initialState, 1) :=
  ⟨rfl,
   (forecast_retry_policy _ 51 0 7 initialState rfl).1 emptyDaily rfl rfl rfl,
   (forecast_retry_policy _ 51 0 7 initialState rfl).2.1 400 (by decide) rfl⟩

end TravelPlanning
